import Mathlib

/-!
# Uncursed: text splitting and the scrollable menu

A shallow embedding of `uncursed.cpp` and `menu.cpp`.

* `std::string` is a `List Char`; `size()` is `List.length`.
* `unsigned int` values are naturals below `2 ^ 32`; every `unsigned int` operation that can
  leave that range is written with an explicit `% 4294967296`.
* A C++ call that does not return normally (a `std::out_of_range` thrown by `.at()`, or a loop
  that never ends) is `none`.
-/

namespace unc

/-! ## String helpers (`uncursed.cpp`, lines 590-652) -/

/-- The call `str.find(sep, 0)` of `std::string`: the index of the first occurrence of `sep`
in `str`, or `none` for `npos`. -/
def find : List Char → List Char → Option Nat
  | [], sep => if sep.isEmpty then some 0 else none
  | c :: rest, sep =>
    if sep.isPrefixOf (c :: rest) then some 0 else (find rest sep).map (· + 1)

/-- The `while (pos != std::string::npos)` loop of `string_explode`, one unit of fuel per
evaluation of the loop condition. -/
def string_explode_loop (separator : List Char) :
    Nat → List Char → List (List Char) → Option (List (List Char))
  | 0, _, _ => none
  | fuel + 1, str, results =>
    match find str separator with
    | none => some (results ++ [str])
    | some pos =>
      string_explode_loop separator fuel (str.drop (pos + separator.length))
        (results ++ [if pos = 0 then [] else str.take pos])

/-- The function `string_explode(str, separator)`. With a non-empty separator every iteration
erases at least one character of `str`, so `str.size() + 1` evaluations of the loop condition
always suffice; with an empty separator `find` answers `0` for ever and the C++ loop never
ends, which is the only way the fuel runs out. -/
def string_explode (str separator : List Char) : Option (List (List Char)) :=
  string_explode_loop separator (str.length + 1) str []

/-- The `while (words.size())` loop of `vector_split`. `line_len + 1` is an `unsigned int`
sum, hence the reduction modulo `2 ^ 32`. Leaving the loop needs no fuel; each pass through
the body uses one unit. -/
def vector_split_loop (line_len : Nat) :
    Nat → List (List Char) → List Char → List (List Char) → Option (List (List Char))
  | _, [], current_line, result =>
    some (if current_line.length ≠ 0 then result ++ [current_line] else result)
  | 0, _ :: _, _, _ => none
  | fuel + 1, word :: words, current_line, result =>
    if word.length > line_len then
      vector_split_loop line_len fuel
        (word.take line_len :: word.drop ((line_len + 1) % 4294967296) :: words)
        current_line result
    else if current_line.length + word.length + 1 > line_len then
      vector_split_loop line_len fuel words word (result ++ [current_line])
    else if current_line.length ≠ 0 then
      vector_split_loop line_len fuel words (current_line ++ ' ' :: word) result
    else
      vector_split_loop line_len fuel words word result

/-- The number of passes `vector_split_loop` needs at most on `words` when `line_len + 1`
does not wrap: a pass either consumes a word, or replaces a word of `n` characters by two
words of `line_len` and `n - line_len - 1` characters. -/
def split_budget (words : List (List Char)) : Nat :=
  (words.map fun word => 2 * word.length + 1).sum

/-- The function `vector_split(source, line_len)`. The loop is given `split_budget words`
passes, which it exceeds only when `line_len + 1` wraps to `0` on an over-long word: then
`second_half` is the whole word again and the C++ loop never ends. -/
def vector_split (source : List Char) (line_len : Nat) : Option (List (List Char)) :=
  if source.length ≤ line_len then some [source]
  else
    match string_explode source [' '] with
    | none => none
    | some words => vector_split_loop line_len (split_budget words) words [] []

/-- The characters of a list of lines that are not spaces, in order. -/
def non_space (lines : List (List Char)) : List Char :=
  lines.flatten.filter (· ≠ ' ')

/-- Joins lines with single spaces. -/
def join_spaces (lines : List (List Char)) : List Char :=
  List.intercalate [' '] lines

/-! ## Machine integers -/

/-- Conversion of an integer to `unsigned int`. -/
def u32 (n : Int) : Nat := (n % 4294967296).toNat

/-- Conversion of an integer to `int` (two's complement, 32 bits). -/
def i32 (n : Int) : Int := (n + 2147483648) % 4294967296 - 2147483648

/-! ## Colours, glyphs, flags, keys (`uncursed.h`, `uncursed.cpp`) -/

/-- The enumeration `Colour`. -/
inductive Colour where
  | NONE | BLACK | RED | GREEN | YELLOW | BLUE | MAGENTA | CYAN | WHITE
  deriving DecidableEq, Repr

/-- The glyphs of `enum class Glyph` that the menu prints. -/
inductive Glyph where
  | RTEE | LTEE | DARROW | UARROW
  deriving DecidableEq, Repr

def UNC_BOLD : Nat := 1
def UNC_NL : Nat := 2
def UNC_RAW : Nat := 4
def UNC_REVERSE : Nat := 8
def UNC_DOUBLE : Nat := 16
def UNC_BLINK : Nat := 32
def UNC_FLAG_LEFT : Nat := 1
def UNC_FLAG_RIGHT : Nat := 2
def MENU_SIDEBOX_WIDTH : Nat := 20

/-- The key codes of `curses.h` that `uncursed.cpp` names; their values belong to the curses
library in use, so they are a parameter. -/
structure Keys where
  KEY_UP : Int
  KEY_DOWN : Int
  KEY_LEFT : Int
  KEY_RIGHT : Int
  KEY_RESIZE : Int

/-- The key codes of ncurses. -/
def ncurses : Keys :=
  { KEY_UP := 259, KEY_DOWN := 258, KEY_LEFT := 260, KEY_RIGHT := 261, KEY_RESIZE := 410 }

def is_cancel (key : Int) : Bool := key == 27
def is_down (K : Keys) (key : Int) : Bool := key == K.KEY_DOWN || key == 115 || key == 83
def is_left (K : Keys) (key : Int) : Bool := key == K.KEY_LEFT || key == 97 || key == 65
def is_right (K : Keys) (key : Int) : Bool := key == K.KEY_RIGHT || key == 100 || key == 68
def is_select (key : Int) : Bool := key == 32 || key == 10 || key == 13
def is_up (K : Keys) (key : Int) : Bool := key == K.KEY_UP || key == 119 || key == 87
def resize_key (K : Keys) : Int := K.KEY_RESIZE

/-! ## Windows -/

/-- The class `Window`: width, height, origin and the optional border window. The curses
handles are not modelled. -/
inductive Window where
  | mk (w h : Nat) (x y : Int) (border_ptr : Option Window)

def Window.get_width : Window → Nat
  | .mk w _ _ _ _ => w

def Window.get_height : Window → Nat
  | .mk _ h _ _ _ => h

def Window.get_x : Window → Int
  | .mk _ _ x _ _ => x

def Window.get_y : Window → Int
  | .mk _ _ _ y _ => y

def Window.border : Window → Option Window
  | .mk _ _ _ _ b => b

/-- The constructor `Window::Window(width, height, new_x, new_y, new_border)`. The border
window is built by the same constructor with `new_border = 0`, which is the second branch.
`width -= 4` and `height -= 2` are `unsigned int` subtractions. -/
def Window.new (width height : Nat) (new_x new_y : Int) (new_border : Bool) : Window :=
  if new_border then
    Window.mk ((width + 4294967292) % 4294967296) ((height + 4294967294) % 4294967296)
      (new_x + 2) (new_y + 1) (some (Window.mk width height new_x new_y none))
  else
    Window.mk width height new_x new_y none

/-- The function `get_cols(window)` for a menu window; a null window is the whole screen, whose
width the menu never asks for. -/
def get_cols (window : Window) : Nat := window.get_width

/-- The function `get_midcol(window)`. -/
def get_midcol (window : Window) : Nat := get_cols window / 2

/-! ## The menu (`menu.h`, `menu.cpp`) -/

/-- The data members of `class Menu`. -/
structure Menu where
  allow_left : Bool
  allow_right : Bool
  centered_text : Bool
  colour : List Colour
  items : List (List Char)
  item_sidebox : List (List Char)
  item_x : List Int
  offset : Nat
  offset_text : Bool
  redraw_on_exit : Bool
  selected : Nat
  sidebox_height : Nat
  tag_bl : List Char
  tag_br : List Char
  title : List Char
  window : Option Window
  window_offset : Option Window
  x_pos : Int
  y_pos : Int
  x_size : Int
  y_size : Int
  title_x : Int
  bl_x : Int
  br_x : Int

/-- The constructor `Menu()`. -/
def Menu.new : Menu :=
  { allow_left := false, allow_right := false, centered_text := true, colour := [], items := [],
    item_sidebox := [], item_x := [], offset := 0, offset_text := false, redraw_on_exit := true,
    selected := 0, sidebox_height := 0, tag_bl := [], tag_br := [], title := [],
    window := none, window_offset := none, x_pos := 0, y_pos := 0, x_size := 0, y_size := 0,
    title_x := 0, bl_x := 0, br_x := 0 }

/-- The method `Menu::add_item(txt, col, sidebox)`. `height` is an `unsigned int`,
`sidebox_height` an `unsigned short`. -/
def Menu.add_item (m : Menu) (txt : List Char) (col : Colour) (sidebox : List Char) :
    Option Menu :=
  let m1 : Menu :=
    { m with
      items := m.items ++ [txt], item_x := m.item_x ++ [0], colour := m.colour ++ [col],
      item_sidebox := m.item_sidebox ++ [sidebox] }
  if sidebox.length ≠ 0 then
    match vector_split sidebox MENU_SIDEBOX_WIDTH with
    | none => none
    | some lines =>
      let height := lines.length % 4294967296
      if height > m.sidebox_height then some { m1 with sidebox_height := height % 65536 }
      else some m1
  else some m1

/-- The first loop of `Menu::reposition`: the longest item text, as an `unsigned int`. -/
def reposition_widest (items : List (List Char)) : Nat :=
  items.foldl
    (fun widest item =>
      let len := item.length % 4294967296
      if len > widest then len else widest)
    0

/-- The loop of `Menu::reposition` over `item_x`: entry `i` becomes
`window_midcol - (items.at(i).size() / 2)`, converted to `int`; `items.at(i)` throws when
`items` is shorter than `item_x`. -/
def reposition_item_x (window_midcol : Int) : List Int → List (List Char) → Option (List Int)
  | [], _ => some []
  | _ :: _, [] => none
  | _ :: xs, item :: items =>
    match reposition_item_x window_midcol xs items with
    | none => none
    | some rest => some (i32 (window_midcol - (item.length / 2 : Nat)) :: rest)

/-- The value of `widest` in `Menu::reposition` after its three comparisons (lines 62-69);
`widest` is an `unsigned int`. -/
def reposition_width (m : Menu) : Nat :=
  let widest0 := reposition_widest m.items
  let widest1 :=
    if m.tag_bl.length + m.tag_br.length > widest0 then
      (m.tag_bl.length + m.tag_br.length) % 4294967296
    else widest0
  if m.title.length > widest1 then m.title.length % 4294967296 else widest1

/-- The value `x_size = widest + 4` of `Menu::reposition`: an `unsigned int` sum stored in an
`int`. -/
def reposition_x_size (m : Menu) : Int :=
  i32 ((reposition_width m + 4) % 4294967296 : Nat)

/-- The value `y_size` of `Menu::reposition`: `items.size() + 2` stored in an `int`, then
capped at 24. -/
def reposition_y_size (m : Menu) : Int :=
  let y_size := i32 (m.items.length + 2 : Nat)
  if y_size > 24 then 24 else y_size

/-- The value `x_pos` of `Menu::reposition`; `midcol` is 40. -/
def reposition_x_pos (m : Menu) : Int :=
  let x_pos := 40 - Int.tdiv (reposition_x_size m) 2
  if m.offset_text then x_pos + ((MENU_SIDEBOX_WIDTH + 2) / 2 : Nat) else x_pos

/-- The value `y_pos` of `Menu::reposition`; `midrow` is 12. -/
def reposition_y_pos (m : Menu) : Int :=
  12 - Int.tdiv (reposition_y_size m) 2

/-- The window `Window(x_size, y_size, x_pos, y_pos)` that `Menu::reposition` creates; the
sizes become `unsigned int` arguments. -/
def reposition_window (m : Menu) : Window :=
  Window.new (u32 (reposition_x_size m)) (u32 (reposition_y_size m)) (reposition_x_pos m)
    (reposition_y_pos m) false

/-- The value `window_midcol` of `Menu::reposition`, an `int`. -/
def reposition_midcol (m : Menu) : Int :=
  i32 (get_midcol (reposition_window m) : Nat)

/-- The assignments that end `Menu::reposition` (lines 70-87), given the new `item_x`. -/
def Menu.placed (m : Menu) (item_x : List Int) : Menu :=
  { m with
    x_size := reposition_x_size m,
    y_size := reposition_y_size m,
    x_pos := reposition_x_pos m,
    y_pos := reposition_y_pos m,
    window := some (reposition_window m),
    window_offset :=
      if m.offset_text then
        some (Window.new (MENU_SIDEBOX_WIDTH + 4) (m.sidebox_height + 2)
          (reposition_x_pos m - MENU_SIDEBOX_WIDTH - 4) (reposition_y_pos m) false)
      else m.window_offset,
    item_x := item_x,
    title_x := i32 (reposition_midcol m - (m.title.length / 2 : Nat)),
    bl_x := reposition_x_pos m + 1,
    br_x := i32 (reposition_x_pos m + reposition_x_size m - (m.tag_br.length : Nat) - 1) }

/-- The method `Menu::reposition()`. -/
def Menu.reposition (m : Menu) : Option Menu :=
  if m.items.length = 0 then some m
  else
    match reposition_item_x (reposition_midcol m) m.item_x m.items with
    | none => none
    | some item_x => some (m.placed item_x)

/-- The method `Menu::set_title`. -/
def Menu.set_title (m : Menu) (new_title : List Char) : Menu :=
  { m with title := new_title }

/-- The method `Menu::set_tags`. -/
def Menu.set_tags (m : Menu) (bl br : List Char) : Menu :=
  let m1 := if bl.length ≠ 0 then { m with tag_bl := bl } else m
  if br.length ≠ 0 then { m1 with tag_br := br } else m1

/-- The method `Menu::allow_left_right`. -/
def Menu.allow_left_right (m : Menu) (flags : Nat) : Menu :=
  let m1 := if flags &&& UNC_FLAG_LEFT = UNC_FLAG_LEFT then { m with allow_left := true } else m
  if flags &&& UNC_FLAG_RIGHT = UNC_FLAG_RIGHT then { m1 with allow_right := true } else m1

/-- The loop `while (selected > offset + 21) offset++;` of `Menu::set_selected`, one unit of
fuel per evaluation of the condition; the result is the final `offset`. -/
def set_selected_raise (selected : Nat) : Nat → Nat → Option Nat
  | 0, _ => none
  | fuel + 1, offset =>
    if selected > (offset + 21) % 4294967296 then
      set_selected_raise selected fuel ((offset + 1) % 4294967296)
    else some offset

/-- The loop `while (selected < offset) offset--;` of `Menu::set_selected`. -/
def set_selected_lower (selected : Nat) : Nat → Nat → Option Nat
  | 0, _ => none
  | fuel + 1, offset =>
    if selected < offset then
      set_selected_lower selected fuel ((offset + 4294967295) % 4294967296)
    else some offset

/-- The method `Menu::set_selected(pos)`; `pos` is an `unsigned int`. Each loop visits an
`offset` at most once before it wraps round, so `2 ^ 32 + 1` evaluations of a condition are
more than either loop can make. -/
def Menu.set_selected (m : Menu) (pos : Nat) : Option Menu :=
  let selected := pos % 4294967296
  match set_selected_raise selected 4294967297 m.offset with
  | none => none
  | some offset1 =>
    match set_selected_lower selected 4294967297 offset1 with
    | none => none
    | some offset2 => some { m with selected := selected, offset := offset2 }

/-- The scroll clamp that ends an iteration of the loop of `Menu::render`:
`if (selected > offset + 21) offset++; else if (selected < offset) offset--;`. -/
def Menu.scroll_clamp (m : Menu) : Menu :=
  if m.selected > (m.offset + 21) % 4294967296 then
    { m with offset := (m.offset + 1) % 4294967296 }
  else if m.selected < m.offset then
    { m with offset := (m.offset + 4294967295) % 4294967296 }
  else m

/-- The scan `for (i = 0; i < items.size(); i++) if (colour.at(i) != BLACK) ...` that opens
`Menu::render`, run on the `count` indices from `i` on: `some (some i)` is the index found,
`some none` the end of the loop without a hit, `none` a throw of `colour.at(i)` or an
`unsigned int` index that wraps round below `items.size()` and so never reaches it. -/
def first_enabled (colour : List Colour) : Nat → Nat → Option (Option Nat)
  | 0, _ => some none
  | count + 1, i =>
    if i ≥ 4294967296 then none
    else
      match colour[i]? with
      | none => none
      | some c => if c ≠ Colour.BLACK then some (some i) else first_enabled colour count (i + 1)

/-- The loop `while (selected > 0 && (!items.at(selected).size() || colour.at(selected) ==
BLACK)) selected--;` started at `selected`; the result is the final `selected`. -/
def scan_up (items : List (List Char)) (colour : List Colour) : Nat → Option Nat
  | 0 => some 0
  | s + 1 =>
    match items[s + 1]? with
    | none => none
    | some item =>
      if item.length = 0 then scan_up items colour s
      else
        match colour[s + 1]? with
        | none => none
        | some c => if c = Colour.BLACK then scan_up items colour s else some (s + 1)

/-- The value `items.size() - 1`, a `size_t`: a size is below `2 ^ 64`, and `0 - 1` wraps. -/
def size_minus_one (size : Nat) : Nat := if size = 0 then 18446744073709551615 else size - 1

/-- The loop `while (selected < items.size() - 1 && (!items.at(selected).size() ||
colour.at(selected) == BLACK)) selected++;`, one unit of fuel per evaluation of the
condition. -/
def scan_down (items : List (List Char)) (colour : List Colour) : Nat → Nat → Option Nat
  | 0, _ => none
  | fuel + 1, s =>
    if s < size_minus_one items.length then
      match items[s]? with
      | none => none
      | some item =>
        if item.length = 0 then scan_down items colour fuel ((s + 1) % 4294967296)
        else
          match colour[s]? with
          | none => none
          | some c =>
            if c = Colour.BLACK then scan_down items colour fuel ((s + 1) % 4294967296)
            else some s
    else some s

/-- What one key does to the loop of `Menu::render`: leave it with a value, or go round
again with a new menu state. -/
inductive Step where
  | ret (value : Int)
  | go (m : Menu)

/-- The key handling of one iteration of the loop of `Menu::render` (lines 143-168), the
scroll clamp included. The down scan gets `items.size()` evaluations of its condition: it
moves `selected` up by one each time and stops at `items.size() - 1`, unless `selected`
wraps round at `2 ^ 32` below that bound, and then it visits every index it can reach within
`items.size()` steps. -/
def Menu.handle_key (K : Keys) (m : Menu) (key : Int) : Option Step :=
  if key = resize_key K then
    match m.reposition with
    | none => none
    | some m1 => some (.go m1)
  else if is_up K key && decide (m.selected > 0) then
    match scan_up m.items m.colour (m.selected - 1) with
    | none => none
    | some s =>
      match m.colour[s]? with
      | none => none
      | some c =>
        some (.go (Menu.scroll_clamp
          { m with selected := if c = Colour.BLACK then m.selected else s }))
  else if is_down K key && decide (m.selected < size_minus_one m.items.length) then
    match scan_down m.items m.colour m.items.length ((m.selected + 1) % 4294967296) with
    | none => none
    | some s =>
      match m.colour[s]? with
      | none => none
      | some c =>
        some (.go (Menu.scroll_clamp
          { m with selected := if c = Colour.BLACK then m.selected else s }))
  else if is_left K key && m.allow_left then some (.ret (-2))
  else if is_right K key && m.allow_right then some (.ret (-3))
  else if is_select key then some (.ret (i32 m.selected))
  else if is_cancel key then some (.ret (-1))
  else some (.go (Menu.scroll_clamp m))

/-- The calls that `Menu::render` makes: to its own `reposition`, and to the drawing and
input functions of `uncursed`, with their arguments. -/
inductive Call where
  | reposition
  | cls (window : Option Window)
  | box (window : Option Window)
  | move_cursor (x y : Int) (window : Option Window)
  | print_glyph (input : Glyph) (colour : Colour) (flags : Nat) (x y : Int)
      (window : Option Window)
  | print (input : List Char) (colour : Colour) (flags : Nat) (x y : Int)
      (window : Option Window)
  | flip
  | get_key

/-- The loop `for (i = start; i < end; i++) print(items.at(i), ...)` of `Menu::render`, run on
the `count` indices from `i` on. -/
def draw_items (m : Menu) : Nat → Nat → Option (List Call)
  | 0, _ => some []
  | count + 1, i =>
    match m.items[i]?, m.colour[i]?, m.item_x[i]? with
    | some item, some c, some x =>
      match draw_items m count (i + 1) with
      | none => none
      | some rest =>
        some (Call.print item c (UNC_BOLD ||| (if m.selected = i then UNC_REVERSE else 0)) x
          (i32 ((1 + i + (4294967296 - m.offset % 4294967296)) % 4294967296 : Nat)) m.window
          :: rest)
    | _, _, _ => none

/-- The loop that prints the lines of the side box. -/
def draw_sidebox (window_offset : Option Window) : List (List Char) → Nat → List Call
  | [], _ => []
  | line :: lines, i =>
    Call.print line Colour.NONE 0 2 (i32 ((1 + i) % 4294967296 : Nat)) window_offset
      :: draw_sidebox window_offset lines (i + 1)

/-- The drawing part of one iteration of the loop of `Menu::render` (lines 111-140). A null
`window` makes `window->get_height()` undefined, which is `none`. -/
def Menu.draw (m : Menu) : Option (List Call) :=
  match m.window with
  | none => none
  | some win =>
    let head : List Call :=
      [Call.cls m.window, Call.box m.window] ++
      (if m.title.length ≠ 0 then
        [Call.move_cursor (m.title_x - 1) 0 m.window,
         Call.print_glyph Glyph.RTEE Colour.NONE 0 (-1) (-1) m.window,
         Call.print m.title Colour.CYAN UNC_BOLD (-1) (-1) m.window,
         Call.print_glyph Glyph.LTEE Colour.NONE 0 (-1) (-1) m.window]
       else []) ++
      (if m.tag_bl.length ≠ 0 then
        [Call.print m.tag_bl Colour.WHITE UNC_BOLD m.bl_x
          (i32 ((win.get_height + 4294967295) % 4294967296 : Nat)) m.window]
       else []) ++
      (if m.tag_br.length ≠ 0 then
        [Call.print m.tag_br Colour.WHITE UNC_BOLD m.br_x
          (i32 ((win.get_height + 4294967295) % 4294967296 : Nat)) m.window]
       else [])
    let start := m.offset
    let end0 := m.items.length % 4294967296
    let end1 :=
      if (end0 + (4294967296 - m.offset % 4294967296)) % 4294967296 > 22 then
        (22 + m.offset) % 4294967296
      else end0
    match draw_items m (end1 - start) start with
    | none => none
    | some rows =>
      let arrows : List Call :=
        (if m.offset > 0 then
          [Call.print_glyph Glyph.UARROW Colour.GREEN UNC_BOLD
            (i32 ((win.get_width + 4294967295) % 4294967296 : Nat)) 1 m.window]
         else []) ++
        (if end1 < m.items.length then
          [Call.print_glyph Glyph.DARROW Colour.GREEN UNC_BOLD
            (i32 ((win.get_width + 4294967295) % 4294967296 : Nat))
            (i32 ((win.get_height + 4294967294) % 4294967296 : Nat)) m.window]
         else [])
      if m.offset_text then
        match m.item_sidebox[m.selected]? with
        | none => none
        | some text =>
          if text.length ≠ 0 then
            match vector_split text MENU_SIDEBOX_WIDTH with
            | none => none
            | some lines =>
              some (head ++ rows ++ arrows ++
                [Call.cls m.window_offset, Call.box m.window_offset] ++
                draw_sidebox m.window_offset lines 0 ++ [Call.flip])
          else
            some (head ++ rows ++ arrows ++
              [Call.cls m.window_offset, Call.box m.window_offset, Call.flip])
      else some (head ++ rows ++ arrows ++ [Call.flip])

/-- How a call of `Menu::render` on a finite supply of keys ends: it returns `value`, leaving
the menu in state `m`, the unread `keys` and the `calls` made; or it has read every key and
waits in `get_key` for the next; or it does not return normally. -/
inductive Outcome where
  | returned (value : Int) (m : Menu) (keys : List Int) (calls : List Call)
  | waiting (m : Menu) (calls : List Call)
  | failed

/-- The `while (true)` loop of `Menu::render`, fed the keys that `get_key` will deliver. -/
def render_loop (K : Keys) : List Int → Menu → List Call → Outcome
  | [], m, calls =>
    match m.draw with
    | none => Outcome.failed
    | some d => Outcome.waiting m (calls ++ d ++ [Call.get_key])
  | key :: keys, m, calls =>
    match m.draw with
    | none => Outcome.failed
    | some d =>
      match m.handle_key K key with
      | none => Outcome.failed
      | some (Step.ret value) => Outcome.returned value m keys (calls ++ d ++ [Call.get_key])
      | some (Step.go m1) =>
        render_loop K keys m1
          (calls ++ d ++ [Call.get_key] ++ if key = resize_key K then [Call.reposition] else [])

/-- The part of `Menu::render` between the test for an empty menu and the call of
`reposition` (lines 96-106): the choice of the initial selection. -/
def Menu.initial_selection (m : Menu) : Option Menu :=
  match m.colour[0]? with
  | none => none
  | some c =>
    if c = Colour.BLACK then
      match first_enabled m.colour m.items.length 0 with
      | none => none
      | some none => some m
      | some (some i) => some { m with selected := i }
    else some m

/-- The method `Menu::render()`, fed the keys that `get_key` will deliver. -/
def Menu.render (K : Keys) (m : Menu) (keys : List Int) : Outcome :=
  if m.items.length = 0 then Outcome.returned (-1) m keys []
  else
    match m.initial_selection with
    | none => Outcome.failed
    | some m1 =>
      match m1.reposition with
      | none => Outcome.failed
      | some m2 => render_loop K keys m2 [Call.reposition]

/-- The menu state that an outcome of `render` leaves behind. -/
def Outcome.menu : Outcome → Option Menu
  | .returned _ m _ _ => some m
  | .waiting m _ => some m
  | .failed => none

/-- A call of the public interface of `Menu`; `render` comes with the keys it will read. -/
inductive Op where
  | add_item (txt : List Char) (col : Colour) (sidebox : List Char)
  | set_title (new_title : List Char)
  | set_tags (bl br : List Char)
  | allow_left_right (flags : Nat)
  | set_selected (pos : Nat)
  | no_redraw_on_exit
  | set_centered_text (choice : Bool)
  | set_sidebox (choice : Bool)
  | render (K : Keys) (keys : List Int)

/-- The effect of one call on the menu. -/
def Menu.apply (m : Menu) : Op → Option Menu
  | .add_item txt col sidebox => m.add_item txt col sidebox
  | .set_title new_title => some (m.set_title new_title)
  | .set_tags bl br => some (m.set_tags bl br)
  | .allow_left_right flags => some (m.allow_left_right flags)
  | .set_selected pos => m.set_selected pos
  | .no_redraw_on_exit => some { m with redraw_on_exit := false }
  | .set_centered_text choice => some { m with centered_text := choice }
  | .set_sidebox choice => some { m with offset_text := choice }
  | .render K keys => (m.render K keys).menu

/-- The effect of a sequence of calls on the menu. -/
def Menu.run (m : Menu) : List Op → Option Menu
  | [] => some m
  | op :: ops =>
    match m.apply op with
    | none => none
    | some m1 => m1.run ops

/-! ## Predicates used to state the properties -/

/-- The parallel vectors of the menu have one entry per item. -/
def Menu.wf (m : Menu) : Prop :=
  m.colour.length = m.items.length ∧ m.item_sidebox.length = m.items.length ∧
    m.item_x.length = m.items.length

/-- The length of the longest text of a list. -/
def longest (items : List (List Char)) : Nat :=
  (items.map List.length).foldr max 0

/-- Every `set_selected(pos)` of a sequence of calls is made with `pos` below the number of
items that the menu holds at that moment. -/
def Menu.in_range (m : Menu) : List Op → Bool
  | [] => true
  | op :: ops =>
    (match op with
      | .set_selected pos => decide (pos < m.items.length)
      | _ => true) &&
    (match m.apply op with
      | none => true
      | some m1 => m1.in_range ops)

end unc

namespace unc

/-! ## Termination and line lengths of `vector_split` -/

/-- C2 (failing input): `vector_split("abcdef", 3)` breaks the over-long word into `abc` and
`ef`: `word.substr(line_len + 1)` skips the character at index `line_len`, so the `d` is lost
and the non-space content of the result differs from that of the source. -/
theorem vector_split_drops_character :
    vector_split "abcdef".toList 3 = some [[], "abc".toList, "ef".toList] ∧
      non_space [[], "abc".toList, "ef".toList] ≠ non_space ["abcdef".toList] := by
  decide

/-- C3 (failing input): on `"abc de"` with width 3 every word fits the width, yet the result
starts with an empty line (the first word is exactly `line_len` long, and the test
`current_line.size() + word.size() + 1 > line_len` flushes the still empty line), so joining
the lines with single spaces gives `" abc de"` and not the source. -/
theorem vector_split_leading_empty_line :
    vector_split "abc de".toList 3 = some [[], "abc".toList, "de".toList] ∧
      join_spaces [[], "abc".toList, "de".toList] = " abc de".toList ∧
      join_spaces [[], "abc".toList, "de".toList] ≠ "abc de".toList := by
  decide

/-- C4: a text no longer than the width comes back as the single line, unchanged; the empty
text gives the single empty line at every width. -/
theorem vector_split_short (t : List Char) (w : Nat) (h : t.length ≤ w) :
    vector_split t w = some [t] ∧ ∀ w2 : Nat, vector_split [] w2 = some [[]] := by
  constructor
  · simp [vector_split, h]
  · intro w2
    simp [vector_split]

theorem vector_split_short_witness :
    vector_split "hello world".toList 11 = some ["hello world".toList] ∧
      ∀ w2 : Nat, vector_split [] w2 = some [[]] :=
  vector_split_short "hello world".toList 11 (by decide)

/-! ## `Menu::render` on an empty menu -/

/-- C5: on a menu without items `render` returns -1 at once: the menu state is the one it was
called on, no key has been read (all of `keys` is still pending) and no call has been made,
neither to `reposition` nor to a drawing function. -/
theorem render_empty (K : Keys) (m : Menu) (keys : List Int) (h : m.items = []) :
    m.render K keys = Outcome.returned (-1) m keys [] := by
  simp [Menu.render, h]

theorem render_empty_witness :
    Menu.new.render ncurses [10, 27] = Outcome.returned (-1) Menu.new [10, 27] [] :=
  render_empty ncurses Menu.new [10, 27] rfl

end unc
